import Mathlib

/-!
Verification development for the FrameIQ conversational recommendation
pipeline (src/agents and src/api of the repository).

The Python pipeline is shallowly embedded: every external effect (the
LLM calls of the supervisor, retriever and chat nodes, the title
extraction call, and the TMDb HTTP lookups of the enricher) is passed
in as an oracle function returning `Except String` values, where
`Except.error` models a raised Python exception. Pure code (keyword
routing, the graph step loop with its recursion limit, the enrichment
loop, the rate limiter, response assembly) is translated directly from
the source files `nodes.py`, `graph.py`, `agent_service.py`,
`flask_integration.py`, `error_handling.py` and `rate_limiter.py`.
-/

/-- Python substring containment (`pat in hay`) on character lists:
`listStartsWith a b` is true when `b` starts with `a`. -/
def listStartsWith : List Char → List Char → Bool
  | [], _ => true
  | _ :: _, [] => false
  | a :: as, b :: bs => a == b && listStartsWith as bs

/-- True when `pat` occurs as a contiguous sublist of `hay`. -/
def hasSubList (pat : List Char) : List Char → Bool
  | [] => listStartsWith pat []
  | c :: rest => listStartsWith pat (c :: rest) || hasSubList pat rest

/-- Python `pat in hay` for strings (nonempty patterns only are used). -/
def strHas (hay pat : String) : Bool :=
  hasSubList pat.toList hay.toList

/-- Python `str.lower()`. -/
def lowerStr (s : String) : String :=
  String.mk (s.toList.map Char.toLower)

/-- Python `any(keyword in text for keyword in keywords)`. -/
def anyKeyword (text : String) (keywords : List String) : Bool :=
  keywords.any (fun k => strHas text k)

/-- Python `messages[-n:]`. -/
def takeLast (n : Nat) (l : List α) : List α :=
  l.drop (l.length - n)

/-- A recorded tool invocation (`{"tool": ..., "args": ...}` entries of
`retrieved_context` in `nodes.py`). -/
structure ToolCall where
  name : String
  args : String
deriving DecidableEq

/-- LangChain message variants used by the pipeline. AI messages carry
their `tool_calls` attribute. -/
inductive Msg
  | human (content : String)
  | ai (content : String) (toolCalls : List ToolCall)
  | system (content : String)
deriving DecidableEq

/-- The `content` attribute of a message. -/
def Msg.content : Msg → String
  | .human c => c
  | .ai c _ => c
  | .system c => c

/-- Python `isinstance(m, AIMessage)`. -/
def Msg.isAI : Msg → Bool
  | .ai _ _ => true
  | _ => false

/-- Python `isinstance(m, HumanMessage)`. -/
def Msg.isHuman : Msg → Bool
  | .human _ => true
  | _ => false

/-- One enriched display record built by `enricher_node` (poster, link
and release-status annotation for the UI). -/
structure EnrichedMediaItem where
  title : Option String
  year : String
  posterUrl : String
  tmdbLink : String
  releaseStatus : String
deriving DecidableEq

/-- The `final_response_metadata` payload (`{"movies": [...], "tv_shows": [...]}`). -/
structure MediaData where
  movies : List EnrichedMediaItem
  tvShows : List EnrichedMediaItem
deriving DecidableEq

/-- The LangGraph shared state (`GraphState` in `state.py`). -/
structure GraphState where
  messages : List Msg
  userIntent : Option String
  nextStep : Option String
  retrievedContext : List ToolCall
  finalResponseMetadata : MediaData
deriving DecidableEq

/-- Structured output of the supervisor fallback LLM call
(`SupervisorDecision` in `state.py`). -/
structure SupervisorDecision where
  nextStep : String
  reasoning : String
deriving DecidableEq

/-- One (title, year) candidate returned by `extract_media_with_llm`.
Both fields come from `dict.get`, hence may be absent. -/
structure Candidate where
  title : Option String
  year : Option String
deriving DecidableEq

/-- One TMDb search result as consumed by `enricher_node`
(all fields are read with `dict.get`). -/
structure TmdbResult where
  titleField : Option String
  nameField : Option String
  id : Nat
  posterPath : Option String
  releaseDate : Option String
  firstAirDate : Option String
deriving DecidableEq

/-- All external effects of one turn, as oracles. `Except.error`
models a raised exception. `isRecent`/`isUpcoming` stand for the
date helpers `is_recent_release`/`is_upcoming_release` imported from
`api.chatbot` (that module is not part of this snapshot; the claims
settled here do not depend on their values). -/
structure Oracles where
  supLLM : List Msg → Except String SupervisorDecision
  reactAgent : List Msg → Except String (List Msg)
  chatLLM : List Msg → Except String String
  extractMedia : String → Except String (List Candidate × List Candidate)
  fetchTmdb : String → String → Option String → Except String (List TmdbResult)
  isRecent : Option String → Bool
  isUpcoming : Option String → Bool

/-- `recommendation_keywords` of `supervisor_node`. -/
def recommendationKeywords : List String :=
  [ "recommend", "suggest", "check out", "might enjoy", "here are", "similar to"]

/-- Explanation keywords of `supervisor_node` (`is_explanation`). -/
def explanationKeywords : List String :=
  [ "film noir", "genre", "style", "technique", "director", "cinematography"]

/-- Greeting-response keywords of `supervisor_node` (`is_greeting_response`). -/
def greetingResponseKeywords : List String :=
  [ "i\x27d be happy", "i\x27m here to help", "what can i help"]

/-- Recommendation-request keywords checked on a user message. -/
def humanRecKeywords : List String :=
  [ "suggest", "recommend", "like", "similar", "trending", "recent", "new",
    "what should i watch"]

/-- General-question keywords checked on a user message. -/
def humanQuestionKeywords : List String :=
  [ "what is", "who", "when", "where", "how", "explain", "tell me about"]

/-- Greeting keywords checked on a user message. -/
def humanGreetingKeywords : List String :=
  [ "hello", "hi", "hey", "thanks", "thank you", "bye", "goodbye"]

/-- `has_recommendations` on a lowercased AI reply. -/
def hasRecommendationLang (c : String) : Bool :=
  anyKeyword (lowerStr c) recommendationKeywords

/-- `is_explanation` on a lowercased AI reply. -/
def isExplanationLang (c : String) : Bool :=
  anyKeyword (lowerStr c) explanationKeywords

/-- `is_greeting_response` on a lowercased AI reply. -/
def isGreetingResponseLang (c : String) : Bool :=
  anyKeyword (lowerStr c) greetingResponseKeywords

/-- Recommendation-request check on a lowercased user message. -/
def humanWantsRec (c : String) : Bool :=
  anyKeyword (lowerStr c) humanRecKeywords

/-- General-question check on a lowercased user message. -/
def humanAsksQuestion (c : String) : Bool :=
  anyKeyword (lowerStr c) humanQuestionKeywords

/-- Greeting check on a lowercased user message. -/
def humanGreets (c : String) : Bool :=
  anyKeyword (lowerStr c) humanGreetingKeywords

/-- System prompt of the supervisor fallback call. -/
def supervisorSystemPrompt : String :=
  "You are a routing supervisor. Analyze the conversation and decide:\n- \"retriever\" if user wants movie/TV recommendations\n- \"chat\" if user asks general questions or greetings\n- \"end\" if conversation is complete\n\nReturn your decision."

/-- The `if len(messages) >= 2` / `isinstance(last_message, AIMessage)`
branch of `supervisor_node`. -/
def aiBranchDecision (s : GraphState) : Option GraphState :=
  if s.messages.length ≥ 2 then
    match s.messages.getLast? with
    | some (.ai c _) =>
      if hasRecommendationLang c && !isGreetingResponseLang c then
        some { s with nextStep := some "enricher", userIntent := some "enrich" }
      else if (isExplanationLang c || isGreetingResponseLang c)
          && !hasRecommendationLang c then
        some { s with nextStep := some "end", userIntent := some "end" }
      else none
    | _ => none
  else none

/-- The `isinstance(messages[-1], HumanMessage)` branch of `supervisor_node`. -/
def humanBranchDecision (s : GraphState) : Option GraphState :=
  match s.messages.getLast? with
  | some (.human c) =>
    if humanWantsRec c then
      some { s with nextStep := some "retriever", userIntent := some "search" }
    else if humanAsksQuestion c then
      some { s with nextStep := some "chat", userIntent := some "chat" }
    else if humanGreets c then
      some { s with nextStep := some "chat", userIntent := some "chat" }
    else none
  | _ => none

/-- `intent_map.get(next_step, "end")`. -/
def intentMap (nextStep : String) : String :=
  if nextStep == "retriever" then "search"
  else if nextStep == "chat" then "chat"
  else if nextStep == "enricher" then "enrich"
  else if nextStep == "end" then "end"
  else "end"

/-- Message list handed to the supervisor fallback LLM:
`[SystemMessage(system_prompt), *messages[-3:]]`. -/
def supervisorContext (s : GraphState) : List Msg :=
  Msg.system supervisorSystemPrompt :: takeLast 3 s.messages

/-- The structured-output fallback call of `supervisor_node`. A raised
exception propagates out of the node. -/
def llmRoute (o : Oracles) (s : GraphState) : Except String GraphState :=
  match o.supLLM (supervisorContext s) with
  | .error e => .error e
  | .ok d =>
    .ok { s with nextStep := some d.nextStep,
                 userIntent := some (intentMap d.nextStep) }

/-- `supervisor_node` of `nodes.py`: AI-reply rules first, then
user-message keyword rules, then the LLM fallback. -/
def supervisorNode (o : Oracles) (s : GraphState) : Except String GraphState :=
  match aiBranchDecision s with
  | some s' => .ok s'
  | none =>
    match humanBranchDecision s with
    | some s' => .ok s'
    | none => llmRoute o s

/-- System prompt of `retriever_node`. -/
def retrieverSystemPrompt : String :=
  "You are a movie/TV show research assistant with access to:\n1. A vector database of movies/shows (search_vector_db) - for semantic similarity\n2. TMDb API (search_tmdb) - for specific titles and recent releases\n3. Trending data (search_tmdb_trending) - for what\x27s popular now\n\n**Guidelines:**\n- Use search_vector_db for: \"movies like X\", vibes, themes, genres\n- Use search_tmdb for: specific titles, recent releases (2022-2025), factual info\n- Use search_tmdb_trending for: \"what\x27s trending\", \"what\x27s popular\"\n- You can use MULTIPLE tools if needed\n- Provide detailed, conversational recommendations\n- Always mention if something is a Movie or TV Show\n- Explain WHY you\x27re recommending each item (similar themes, genres, style)\n\nBe helpful and thorough!"

/-- Messages handed to the react agent by `retriever_node`. -/
def retrieverContext (s : GraphState) : List Msg :=
  Msg.system retrieverSystemPrompt :: s.messages

/-- `agent_messages[-1] if agent_messages else AIMessage(content="I couldn\x27t find any results.")`. -/
def finalAgentMessage (agentMessages : List Msg) : Msg :=
  agentMessages.getLast?.getD (.ai "I couldn\x27t find any results." [])

/-- The `retrieved_context` extraction loop of `retriever_node`: collect
the `tool_calls` of every message of the agent result. -/
def collectToolCalls : List Msg → List ToolCall
  | [] => []
  | .ai _ tcs :: rest => tcs ++ collectToolCalls rest
  | _ :: rest => collectToolCalls rest

/-- `retriever_node` of `nodes.py`: run the react agent, append its
final message, record the tool invocations. An exception raised by the
agent propagates. -/
def retrieverNode (o : Oracles) (s : GraphState) : Except String GraphState :=
  match o.reactAgent (retrieverContext s) with
  | .error e => .error e
  | .ok agentMessages =>
    .ok { s with
          messages := s.messages ++ [finalAgentMessage agentMessages],
          retrievedContext := collectToolCalls agentMessages }

/-- System prompt of `chat_node`. -/
def chatSystemPrompt : String :=
  "You are a friendly movie/TV expert assistant.\n\nAnswer general questions about movies, TV shows, cinema history, and film concepts.\nBe conversational and helpful. If the user asks for recommendations, suggest they ask more specifically."

/-- Messages handed to the chat model by `chat_node`. -/
def chatContext (s : GraphState) : List Msg :=
  Msg.system chatSystemPrompt :: s.messages

/-- `chat_node` of `nodes.py`: invoke the chat model on the full
history and append its reply; no tools, no other state change. -/
def chatNode (o : Oracles) (s : GraphState) : Except String GraphState :=
  match o.chatLLM (chatContext s) with
  | .error e => .error e
  | .ok content =>
    .ok { s with messages := s.messages ++ [Msg.ai content []] }

/-- The `for msg in reversed(messages)` scan of `enricher_node` for the
most recent AI message. -/
def lastAIContent (msgs : List Msg) : Option String :=
  (msgs.reverse.find? Msg.isAI).map Msg.content

/-- Python truthiness of the optional `year` field. -/
def yearTruthy : Option String → Bool
  | none => false
  | some y => !(y == "")

/-- The year search parameter actually sent: present only when truthy. -/
def effectiveYear (y : Option String) : Option String :=
  if yearTruthy y then y else none

/-- The TMDb request sequence of the enricher loop body: one search
with the year parameter, and on an empty result with a truthy year one
retry without it. -/
def lookupResults (o : Oracles) (mediaType title : String) (year : Option String) :
    Except String (List TmdbResult) :=
  match o.fetchTmdb mediaType title (effectiveYear year) with
  | .error e => .error e
  | .ok results =>
    if results.isEmpty && yearTruthy year then
      o.fetchTmdb mediaType title none
    else
      .ok results

/-- Placeholder poster URL. -/
def noImageUrl : String := "https://via.placeholder.com/500x750?text=No+Image"

/-- `media_info.get("title")` vs `media_info.get("name")`. -/
def mediaTitleOf (mediaType : String) (r : TmdbResult) : Option String :=
  if mediaType == "movie" then r.titleField else r.nameField

/-- `media_info.get("release_date")` vs `media_info.get("first_air_date")`. -/
def releaseDateOf (mediaType : String) (r : TmdbResult) : Option String :=
  if mediaType == "movie" then r.releaseDate else r.firstAirDate

/-- The display record built from the first TMDb result. -/
def buildFoundItem (o : Oracles) (mediaType : String) (r : TmdbResult) :
    EnrichedMediaItem :=
  let releaseDate := releaseDateOf mediaType r
  let releaseYear := match releaseDate with
    | some d => if d == "" then "Unknown" else String.mk (d.toList.take 4)
    | none => "Unknown"
  let releaseStatus :=
    if o.isUpcoming releaseDate then " (UPCOMING)"
    else if o.isRecent releaseDate then " (RECENT)"
    else ""
  { title := mediaTitleOf mediaType r
  , year := releaseYear
  , posterUrl := match r.posterPath with
      | some p => if p == "" then noImageUrl
                  else "https://image.tmdb.org/t/p/w500" ++ p
      | none => noImageUrl
  , tmdbLink := "/" ++ mediaType ++ "/" ++ toString r.id
  , releaseStatus := releaseStatus }

/-- The not-found placeholder record. -/
def notFoundItem (title : String) (year : Option String) : EnrichedMediaItem :=
  { title := some title
  , year := if yearTruthy year then year.getD "N/A" else "N/A"
  , posterUrl := noImageUrl
  , tmdbLink := "#"
  , releaseStatus := " (Not found in database)" }

/-- One iteration of the enricher loop: `none` when the candidate is
skipped (missing/empty title, or an exception raised inside the `try`
block, which the source answers with `continue`). -/
def processCandidate (o : Oracles) (mediaType : String) (c : Candidate) :
    Option EnrichedMediaItem :=
  match c.title with
  | none => none
  | some t =>
    if t == "" then none
    else
      match lookupResults o mediaType t c.year with
      | .error _ => none
      | .ok [] => some (notFoundItem t c.year)
      | .ok (r :: _) => some (buildFoundItem o mediaType r)

/-- The enricher loop over one candidate list. -/
def enrichList (o : Oracles) (mediaType : String) (cands : List Candidate) :
    List EnrichedMediaItem :=
  cands.filterMap (processCandidate o mediaType)

/-- `enricher_node` of `nodes.py`: extract candidates from the last AI
message (extraction failure yields empty lists) and look each one up. -/
def enricherNode (o : Oracles) (s : GraphState) : GraphState :=
  match lastAIContent s.messages with
  | none => { s with finalResponseMetadata := ⟨[], []⟩ }
  | some text =>
    let extracted := match o.extractMedia text with
      | .ok p => p
      | .error _ => ([], [])
    { s with finalResponseMetadata :=
        ⟨enrichList o "movie" extracted.1, enrichList o "tv" extracted.2⟩ }

/-- `should_continue` of `nodes.py`. -/
def shouldContinue (s : GraphState) : String :=
  let ns := s.nextStep.getD "end"
  if ns == "end" then "__end__" else ns

/-- Nodes of the compiled StateGraph (`graph.py`). -/
inductive GNode
  | supervisor
  | retriever
  | chat
  | enricher
deriving DecidableEq

/-- Failure of a graph run: either the recursion limit tripped or a
node raised. -/
inductive GraphError
  | recursionLimit
  | nodeError (msg : String)
deriving DecidableEq

/-- The message of LangGraph GraphRecursionError for limit 15. -/
def recursionErrMsg : String :=
  "Recursion limit of 15 reached without hitting a stop condition. You can increase the limit by setting the `recursion_limit` config key."

/-- `str(e)` of a graph failure as seen by the handler of
`run_agent_chat`. -/
def graphErrorMessage : GraphError → String
  | .recursionLimit => recursionErrMsg
  | .nodeError m => m

/-- Execution of the compiled graph from a given node with the
remaining step budget (`recursion_limit`). Edges follow `graph.py`:
START to supervisor, supervisor conditionally to retriever / chat /
enricher / END via `should_continue`, retriever and chat back to
supervisor, enricher to END. Returns the outcome and the number of node
executions performed. -/
def runGraphAux (o : Oracles) : Nat → GNode → GraphState →
    Except GraphError GraphState × Nat
  | 0, _, _ => (.error .recursionLimit, 0)
  | n + 1, .supervisor, s =>
    match supervisorNode o s with
    | .error e => (.error (.nodeError e), 1)
    | .ok s' =>
      let branch := shouldContinue s'
      if branch == "retriever" then
        let r := runGraphAux o n .retriever s'
        (r.1, r.2 + 1)
      else if branch == "chat" then
        let r := runGraphAux o n .chat s'
        (r.1, r.2 + 1)
      else if branch == "enricher" then
        let r := runGraphAux o n .enricher s'
        (r.1, r.2 + 1)
      else if branch == "__end__" then
        (.ok s', 1)
      else
        (.error (.nodeError ("unknown branch " ++ branch)), 1)
  | n + 1, .retriever, s =>
    match retrieverNode o s with
    | .error e => (.error (.nodeError e), 1)
    | .ok s' =>
      let r := runGraphAux o n .supervisor s'
      (r.1, r.2 + 1)
  | n + 1, .chat, s =>
    match chatNode o s with
    | .error e => (.error (.nodeError e), 1)
    | .ok s' =>
      let r := runGraphAux o n .supervisor s'
      (r.1, r.2 + 1)
  | _ + 1, .enricher, s => (.ok (enricherNode o s), 1)

/-- `recursion_limit` configured in `agent_service.py`. -/
def recursionLimitConfig : Nat := 15

/-- One full graph invocation (`graph.invoke(initial_state, config)`). -/
def runGraph (o : Oracles) (s : GraphState) : Except GraphError GraphState × Nat :=
  runGraphAux o recursionLimitConfig .supervisor s

/-- `get_fallback_response` of `error_handling.py` (the `user_message`
argument is accepted and unused, as in the source). -/
def getFallbackResponse (errorType userMessage : String) : String :=
  if errorType == "tool_error" then
    "I encountered an issue searching for that information. Could you try rephrasing your question?"
  else if errorType == "llm_error" then
    "I\x27m having trouble processing your request right now. Please try again in a moment."
  else if errorType == "rate_limit" then
    "I\x27m receiving too many requests right now. Please wait a moment and try again."
  else if errorType == "timeout" then
    "That search is taking longer than expected. Could you try a more specific query?"
  else if errorType == "not_found" then
    "I couldn\x27t find any results for that. Could you provide more details or try a different search?"
  else
    "I encountered an unexpected error. Please try again."

/-- The error-type classification of the `except` handler in
`run_agent_chat`. -/
def classifyErrorType (e : String) : String :=
  if strHas (lowerStr e) "rate" || strHas e "429" then "rate_limit"
  else if strHas (lowerStr e) "timeout" then "timeout"
  else "llm_error"

/-- The retry loop of the `retry_on_error` decorator
(`error_handling.py`): `attempts k` is the outcome of the `k`-th call
of the wrapped function. Returns the final outcome and the number of
attempts actually made. -/
def retryLoop (attempts : Nat → Except String α) : Nat → Nat → Except String α × Nat
  | k, 0 => (.error "retry loop exhausted with no attempt", k)
  | k, n + 1 =>
    match attempts k with
    | .ok v => (.ok v, k + 1)
    | .error e =>
      match n with
      | 0 => (.error e, k + 1)
      | m + 1 => retryLoop attempts (k + 1) (m + 1)

/-- `retry_on_error(max_retries, delay)` applied to a function. -/
def retryOnError (maxRetries : Nat) (attempts : Nat → Except String α) :
    Except String α × Nat :=
  retryLoop attempts 0 maxRetries

/-- The sleep durations of `retry_on_error`: `delay * (attempt + 1)`
before every attempt except the last. -/
def retryDelays (maxRetries : Nat) (delay : ℤ) : List ℤ :=
  (List.range (maxRetries - 1)).map (fun attempt => delay * (attempt + 1))

/-- Metadata block of the caller-facing response: the success shape
carries `session_id`, `message_count`, `route`, `intent`; the failure
shape carries `session_id`, `error_type`. -/
inductive RespMetadata
  | success (sessionId : String) (messageCount : Nat)
      (route : Option String) (intent : Option String)
  | failure (sessionId : String) (errorType : String)
deriving DecidableEq

/-- The dictionary returned by `run_agent_chat`. `movies`/`tvShows` are
`none` when the corresponding key is absent. -/
structure AgentResponse where
  reply : String
  movies : Option (List EnrichedMediaItem)
  tvShows : Option (List EnrichedMediaItem)
  metadata : RespMetadata
  error : Option String
deriving DecidableEq

/-- The final-reply scan of `run_agent_chat`: last message with truthy
content, defaulting to the empty string. -/
def finalReply (msgs : List Msg) : String :=
  ((msgs.reverse.find? (fun m => !(m.content == ""))).map Msg.content).getD ""

/-- The `initial_state` literal of `run_agent_chat`. -/
def initialState (userMessage : String) : GraphState :=
  { messages := [.human userMessage]
  , userIntent := none
  , nextStep := none
  , retrievedContext := []
  , finalResponseMetadata := ⟨[], []⟩ }

/-- The body of `run_agent_chat` (`agent_service.py`): run the graph;
on success assemble the reply and metadata, adding the `movies` and
`tv_shows` keys only when the enriched lists are truthy; on any
exception classify it and return the categorized fallback. -/
def runAgentChat (o : Oracles) (userMessage sessionId : String) : AgentResponse :=
  match (runGraph o (initialState userMessage)).1 with
  | .ok finalState =>
    { reply := finalReply finalState.messages
    , movies :=
        if finalState.finalResponseMetadata.movies.isEmpty then none
        else some finalState.finalResponseMetadata.movies
    , tvShows :=
        if finalState.finalResponseMetadata.tvShows.isEmpty then none
        else some finalState.finalResponseMetadata.tvShows
    , metadata := .success sessionId finalState.messages.length
        finalState.nextStep finalState.userIntent
    , error := none }
  | .error e =>
    let msg := graphErrorMessage e
    let errorType := classifyErrorType msg
    { reply := getFallbackResponse errorType userMessage
    , movies := none
    , tvShows := none
    , metadata := .failure sessionId errorType
    , error := some msg }

/-- `run_agent_chat` as deployed: wrapped by
`@retry_on_error(max_retries=2, delay=1.0)`. The body catches every
workflow exception itself, so each attempt is a normal return. -/
def runAgentChatRetried (o : Oracles) (userMessage sessionId : String) :
    Except String AgentResponse × Nat :=
  retryOnError 2 (fun _ => .ok (runAgentChat o userMessage sessionId))

/-- A `RateLimiter` instance (`rate_limiter.py`): configuration plus
the per-identifier timestamp lists (`defaultdict(list)`). Time is
modelled as integer seconds (the claims checked here involve only
addition, subtraction and order comparisons of timestamps). -/
structure RateLimiter where
  maxRequests : Nat
  timeWindow : ℤ
  requests : List (String × List ℤ)
deriving DecidableEq

/-- Read `self.requests[identifier]` (defaulting to the empty list). -/
def getRequests (rl : RateLimiter) (id : String) : List ℤ :=
  (rl.requests.lookup id).getD []

/-- Store into the `requests` dictionary. -/
def upsertRequests : List (String × List ℤ) → String → List ℤ →
    List (String × List ℤ)
  | [], id, l => [(id, l)]
  | (k, v) :: rest, id, l =>
    if k == id then (id, l) :: rest else (k, v) :: upsertRequests rest id l

/-- `self.requests[identifier] = ...`. -/
def setRequests (rl : RateLimiter) (id : String) (l : List ℤ) : RateLimiter :=
  { rl with requests := upsertRequests rl.requests id l }

/-- The window pruning of `is_allowed`: keep timestamps strictly newer
than `now - time_window`. -/
def pruneWindow (rl : RateLimiter) (id : String) (now : ℤ) : List ℤ :=
  (getRequests rl id).filter (fun t => decide (now - rl.timeWindow < t))

/-- `RateLimiter.is_allowed`: prune the window, and when still under
the limit record the current timestamp and admit. The pruned (and
possibly extended) list is written back in both cases. -/
def isAllowed (rl : RateLimiter) (id : String) (now : ℤ) : Bool × RateLimiter :=
  let pruned := pruneWindow rl id now
  if pruned.length < rl.maxRequests then
    (true, setRequests rl id (pruned ++ [now]))
  else
    (false, setRequests rl id pruned)

/-- Python `min` over a nonempty list (0 on the empty list, which the
source never reaches). -/
def pyMin : List ℤ → ℤ
  | [] => 0
  | x :: xs => xs.foldl min x

/-- `RateLimiter.get_wait_time`: calls `is_allowed` (thereby mutating
the window), returns 0 when allowed, else the time until the oldest
recorded request leaves the window. -/
def getWaitTime (rl : RateLimiter) (id : String) (now : ℤ) : ℤ × RateLimiter :=
  let res := isAllowed rl id now
  if res.1 then
    (0, res.2)
  else
    let reqs := getRequests res.2 id
    if reqs.isEmpty then
      (0, res.2)
    else
      let oldest := pyMin reqs
      (max 0 (oldest + rl.timeWindow - now), res.2)

/-- The two module-level limiters of `rate_limiter.py`. -/
structure Limiters where
  userLimiter : RateLimiter
  globalLimiter : RateLimiter
deriving DecidableEq

/-- Their configured initial values: 20 req/min per user, 100 req/min
global. -/
def defaultLimiters : Limiters :=
  ⟨⟨20, 60, []⟩, ⟨100, 60, []⟩⟩

/-- `check_rate_limit` of `rate_limiter.py`: the global limiter is
consulted first, then the per-session limiter. -/
def checkRateLimit (w : Limiters) (sessionId : String) (now : ℤ) :
    (Bool × Option ℤ) × Limiters :=
  let g := isAllowed w.globalLimiter "global" now
  if !g.1 then
    let gw := getWaitTime g.2 "global" now
    ((false, some gw.1), { w with globalLimiter := gw.2 })
  else
    let u := isAllowed w.userLimiter sessionId now
    if !u.1 then
      let uw := getWaitTime u.2 sessionId now
      ((false, some uw.1), { userLimiter := uw.2, globalLimiter := g.2 })
    else
      ((true, none), { userLimiter := u.2, globalLimiter := g.2 })

/-- Result of the `/agent_chat_api` Flask route. -/
inductive TurnResult
  | badRequest (error : String)
  | response (r : AgentResponse)
deriving DecidableEq

/-- The `/agent_chat_api` handler of `flask_integration.py`, threaded
with the module-level limiter state. The handler validates the message
and calls `run_agent_chat` directly; no code path consults
`check_rate_limit`, so the limiter state is passed through untouched. -/
def agentChatApi (o : Oracles) (w : Limiters) (message : Option String)
    (remoteAddr : String) : TurnResult × Limiters :=
  match message with
  | none => (.badRequest "Message is required", w)
  | some m =>
    if m == "" then (.badRequest "Message is required", w)
    else (.response (runAgentChat o m remoteAddr), w)

/-- Baseline oracle assignment for concrete scenarios: every external
call succeeds with an inert value. -/
def stubOracles : Oracles :=
  { supLLM := fun _ => .ok ⟨"end", "done"⟩
  , reactAgent := fun _ => .ok []
  , chatLLM := fun _ => .ok "ok"
  , extractMedia := fun _ => .ok ([], [])
  , fetchTmdb := fun _ _ _ => .ok []
  , isRecent := fun _ => false
  , isUpcoming := fun _ => false }

/-- Scenario: title extraction finds one movie candidate and every
TMDb request raises a network error. -/
def fetchErrOracles : Oracles :=
  { stubOracles with
    extractMedia := fun _ => .ok ([⟨some "Inception", none⟩], [])
    fetchTmdb := fun _ _ _ => .error "network error" }

/-- A state whose last message is an AI reply naming one movie. -/
def inceptionState : GraphState :=
  { messages := [.human "q", .ai "watch Inception" []]
  , userIntent := none
  , nextStep := none
  , retrievedContext := []
  , finalResponseMetadata := ⟨[], []⟩ }

/-- Scenario: the supervisor fallback LLM always answers `chat`, so the
supervisor and the chat agent cycle forever. -/
def cycOracles : Oracles :=
  { stubOracles with supLLM := fun _ => .ok ⟨"chat", "loop"⟩ }

/-- A state whose last message is an AI reply containing both a
recommendation phrase and a greeting phrase. -/
def greetRecState : GraphState :=
  { messages := [.human "hi", .ai "i\x27d be happy to recommend" []]
  , userIntent := none
  , nextStep := none
  , retrievedContext := []
  , finalResponseMetadata := ⟨[], []⟩ }

/-- Supervisor fallback LLM answering `chat`. -/
def supChatOracles : Oracles :=
  { stubOracles with supLLM := fun _ => .ok ⟨"chat", "smalltalk"⟩ }

/-- Supervisor fallback LLM answering `enricher`. -/
def supEnricherOracles : Oracles :=
  { stubOracles with supLLM := fun _ => .ok ⟨"enricher", "cards"⟩ }

/-- A state whose last message is an AI reply matching none of the
supervisor keyword lists. -/
def aiPlainState : GraphState :=
  { messages := [.human "x", .ai "a film" []]
  , userIntent := none
  , nextStep := none
  , retrievedContext := []
  , finalResponseMetadata := ⟨[], []⟩ }

/-- Scenario: the chat model raises on every call. -/
def failChatOracles : Oracles :=
  { stubOracles with chatLLM := fun _ => .error "boom" }

/-- Scenario: the chat model replies with a greeting acknowledgment, so
the turn ends without enrichment. -/
def greetTurnOracles : Oracles :=
  { stubOracles with chatLLM := fun _ => .ok "i\x27m here to help" }

/-- Scenario: the chat model replies with a short explanation, so the
turn ends without enrichment. -/
def chatTermOracles : Oracles :=
  { stubOracles with chatLLM := fun _ => .ok "a genre" }

/-- A limiter world in which the session window of `1.2.3.4` already
holds 20 admitted requests (its configured maximum). -/
def satLimiters : Limiters :=
  ⟨⟨20, 60, [("1.2.3.4", List.replicate 20 0)]⟩, ⟨100, 60, []⟩⟩

/-- A small limiter at its limit: 2 requests per 60 seconds, both slots
taken. -/
def rlTwo : RateLimiter :=
  ⟨2, 60, [("s", [0, 10])]⟩

/-- Limiters where the global window is open and the session window of
`u` is full. -/
def mixedLimiters : Limiters :=
  ⟨⟨2, 60, [("u", [0, 10])]⟩, ⟨100, 60, []⟩⟩

/-- Python truthiness of the extracted `title` field (`if not title:
continue`). -/
def candTitleTruthy (c : Candidate) : Bool :=
  match c.title with
  | none => false
  | some t => !(t == "")

/-- True when the TMDb request sequence for a candidate raises. -/
def lookupFails (o : Oracles) (mediaType : String) (c : Candidate) : Bool :=
  match c.title with
  | none => false
  | some t =>
    match lookupResults o mediaType t c.year with
    | .error _ => true
    | .ok _ => false

/-- The supervisor output on `aiPlainState` when the fallback LLM
answers `enricher`. -/
def aiPlainEnrichedState : GraphState :=
  { aiPlainState with nextStep := some "enricher", userIntent := some "enrich" }

/-- The chat-node output on the initial state of message `hi` under
`stubOracles`. -/
def chatWitState : GraphState :=
  { initialState "hi" with messages := [.human "hi", .ai "ok" []] }

/-- A state whose last message is an AI reply containing the
recommendation phrase `here are` and no greeting phrase. -/
def hereAreState : GraphState :=
  { messages := [.human "hi", .ai "here are" []]
  , userIntent := none
  , nextStep := none
  , retrievedContext := []
  , finalResponseMetadata := ⟨[], []⟩ }

/-- The retriever-node output on the initial state of message `hi`
under `stubOracles` (empty agent result, so the default message is
appended). -/
def retWitState : GraphState :=
  { initialState "hi" with
    messages := [.human "hi", .ai "I couldn\x27t find any results." []] }

/-- The final graph state of the turn `what is x` under
`chatTermOracles`. -/
def chatTermFinalState : GraphState :=
  { messages := [.human "what is x", .ai "a genre" []]
  , userIntent := some "end"
  , nextStep := some "end"
  , retrievedContext := []
  , finalResponseMetadata := ⟨[], []⟩ }


/-! Helper lemmas. -/

theorem runGraphAux_steps_le (o : Oracles) :
    ∀ (n : Nat) (g : GNode) (s : GraphState), (runGraphAux o n g s).2 ≤ n := by
  intro n
  induction n with
  | zero =>
    intro g s
    cases g <;> simp [runGraphAux]
  | succ n ih =>
    intro g s
    cases g with
    | supervisor =>
      unfold runGraphAux
      split
      · simp
      · dsimp only
        split_ifs <;> simp <;> exact ih _ _
    | retriever =>
      unfold runGraphAux
      split
      · simp
      · dsimp only
        simpa using ih _ _
    | chat =>
      unfold runGraphAux
      split
      · simp
      · dsimp only
        simpa using ih _ _
    | enricher =>
      simp [runGraphAux]

theorem enrichList_cons (o : Oracles) (mt : String) (c : Candidate)
    (cs : List Candidate) :
    enrichList o mt (c :: cs) =
      (processCandidate o mt c).toList ++ enrichList o mt cs := by
  cases h : processCandidate o mt c <;>
    simp [enrichList, List.filterMap_cons, h]

theorem enrichList_length (o : Oracles) (mt : String) :
    ∀ cs : List Candidate,
      (enrichList o mt cs).length =
        cs.countP (fun c => (processCandidate o mt c).isSome) := by
  intro cs
  induction cs with
  | nil => rfl
  | cons c cs ih =>
    rw [enrichList_cons]
    cases h : processCandidate o mt c with
    | none => simp [h, List.countP_cons, ih]
    | some v => simp [h, List.countP_cons, ih]

theorem processCandidate_isSome (o : Oracles) (mt : String) (c : Candidate) :
    (processCandidate o mt c).isSome = (candTitleTruthy c && !(lookupFails o mt c)) := by
  unfold processCandidate candTitleTruthy lookupFails
  cases c.title with
  | none => rfl
  | some t =>
    by_cases ht : t == ""
    · simp [ht]
    · simp only [ht]
      cases h : lookupResults o mt t c.year with
      | error e => simp [h, ht]
      | ok rs => cases rs <;> simp [h, ht]

theorem foldl_min_le_init (xs : List ℤ) : ∀ a : ℤ, xs.foldl min a ≤ a := by
  induction xs with
  | nil => intro a; simp
  | cons x xs ih =>
    intro a
    calc (x :: xs).foldl min a = xs.foldl min (min a x) := rfl
    _ ≤ min a x := ih _
    _ ≤ a := min_le_left _ _

theorem foldl_min_le_mem (xs : List ℤ) :
    ∀ (a x : ℤ), x ∈ xs → xs.foldl min a ≤ x := by
  induction xs with
  | nil => intro a x hx; cases hx
  | cons y ys ih =>
    intro a x hx
    have step : List.foldl min a (y :: ys) = List.foldl min (min a y) ys := rfl
    rw [step]
    rcases List.mem_cons.mp hx with rfl | h
    · exact le_trans (foldl_min_le_init ys _) (min_le_right _ _)
    · exact ih _ _ h

theorem foldl_min_mem (xs : List ℤ) :
    ∀ a : ℤ, xs.foldl min a = a ∨ xs.foldl min a ∈ xs := by
  induction xs with
  | nil => intro a; left; rfl
  | cons x xs ih =>
    intro a
    have step : List.foldl min a (x :: xs) = List.foldl min (min a x) xs := rfl
    rcases ih (min a x) with h | h
    · rcases le_total a x with hax | hxa
      · left
        rw [step, h, min_eq_left hax]
      · right
        rw [step, h, min_eq_right hxa]
        exact List.mem_cons_self _ _
    · right
      rw [step]
      exact List.mem_cons_of_mem _ h

theorem pyMin_mem (l : List ℤ) (h : l ≠ []) : pyMin l ∈ l := by
  cases l with
  | nil => exact absurd rfl h
  | cons x xs =>
    rcases foldl_min_mem xs x with h' | h'
    · rw [pyMin, h']
      exact List.mem_cons_self _ _
    · exact List.mem_cons_of_mem _ h'

theorem pyMin_le (l : List ℤ) (x : ℤ) (hx : x ∈ l) : pyMin l ≤ x := by
  cases l with
  | nil => cases hx
  | cons y ys =>
    rcases List.mem_cons.mp hx with rfl | h
    · exact foldl_min_le_init _ _
    · exact foldl_min_le_mem _ _ _ h

theorem lookup_upsertRequests (id : String) (l : List ℤ) :
    ∀ m : List (String × List ℤ), (upsertRequests m id l).lookup id = some l := by
  intro m
  induction m with
  | nil => simp [upsertRequests, List.lookup]
  | cons kv rest ih =>
    obtain ⟨k, v⟩ := kv
    by_cases hk : k = id
    · subst hk
      simp [upsertRequests, List.lookup]
    · have hbek : (k == id) = false := beq_eq_false_iff_ne.mpr hk
      have hbik : (id == k) = false := beq_eq_false_iff_ne.mpr (Ne.symm hk)
      simp [upsertRequests, List.lookup, hbek, hbik, ih]

theorem getRequests_setRequests_self (rl : RateLimiter) (id : String) (l : List ℤ) :
    getRequests (setRequests rl id l) id = l := by
  simp [getRequests, setRequests, lookup_upsertRequests]

theorem pruneWindow_setRequests (rl : RateLimiter) (id : String) (l : List ℤ)
    (t : ℤ) :
    pruneWindow (setRequests rl id l) id t =
      l.filter (fun x => decide (t - rl.timeWindow < x)) := by
  unfold pruneWindow
  rw [getRequests_setRequests_self]
  rfl

/-- C1 counterexample: one movie candidate is extracted, the TMDb
request for it raises, and the enricher output is empty — the
candidate is dropped with no placeholder. -/
theorem enricher_drops_candidate_on_fetch_error :
    fetchErrOracles.extractMedia "watch Inception" =
      .ok ([⟨some "Inception", none⟩], []) ∧
    enrichList fetchErrOracles "movie" [⟨some "Inception", none⟩] = [] ∧
    (enricherNode fetchErrOracles inceptionState).finalResponseMetadata.movies = [] :=
  ⟨rfl, rfl, rfl⟩

/-- C1 (amended): the enricher emits, in extraction order, exactly one
item per candidate whose title is truthy and whose TMDb request
sequence does not raise; a raising candidate is skipped while the
remaining candidates are still processed. -/
theorem enricher_per_candidate_emission (o : Oracles) (mt : String) :
    (∀ (c : Candidate) (cs : List Candidate),
      enrichList o mt (c :: cs) =
        (processCandidate o mt c).toList ++ enrichList o mt cs)
  ∧ (∀ cs : List Candidate,
      (enrichList o mt cs).length =
        cs.countP (fun c => (processCandidate o mt c).isSome))
  ∧ (∀ c : Candidate,
      (processCandidate o mt c).isSome =
        (candTitleTruthy c && !(lookupFails o mt c))) :=
  ⟨fun c cs => enrichList_cons o mt c cs,
   fun cs => enrichList_length o mt cs,
   fun c => processCandidate_isSome o mt c⟩

/-- C2 counterexample: when the step ceiling trips, the fallback reply
does not contain the phrase `could not complete`. -/
theorem ceiling_reply_lacks_could_not_complete :
    (runAgentChat cycOracles "hello" "s0").error = some recursionErrMsg ∧
    strHas (lowerStr (runAgentChat cycOracles "hello" "s0").reply)
      "could not complete" = false :=
  ⟨rfl, by decide⟩

/-- C2 (amended): every graph run performs at most 15 node executions,
and a supervisor-chat cycle trips the recursion limit, after which the
turn returns the generic LLM-error fallback reply with an error field
instead of hanging or crashing. -/
theorem turn_terminates_within_ceiling :
    (∀ (o : Oracles) (g : GNode) (s : GraphState),
      (runGraphAux o recursionLimitConfig g s).2 ≤ recursionLimitConfig)
  ∧ (runGraph cycOracles (initialState "hello")).1 = .error .recursionLimit
  ∧ runAgentChat cycOracles "hello" "s1" =
      { reply := getFallbackResponse "llm_error" "hello"
      , movies := none
      , tvShows := none
      , metadata := .failure "s1" "llm_error"
      , error := some recursionErrMsg } :=
  ⟨fun o g s => runGraphAux_steps_le o recursionLimitConfig g s, rfl, rfl⟩

/-- C4 counterexample: with the session window already full, the rate
limiter would refuse the request, yet the turn handler runs the whole
pipeline and leaves the limiter state untouched. -/
theorem rate_limited_turn_still_runs :
    (checkRateLimit satLimiters "1.2.3.4" 10).1 = (false, some 50) ∧
    agentChatApi greetTurnOracles satLimiters (some "hello") "1.2.3.4" =
      (.response
        { reply := "i\x27m here to help"
        , movies := none
        , tvShows := none
        , metadata := .success "1.2.3.4" 2 (some "end") (some "end")
        , error := none },
       satLimiters) :=
  ⟨by decide, rfl⟩

/-- C4 (amended): `check_rate_limit` exists but is never invoked on
the turn path — a turn leaves the limiter state unchanged and its
outcome is independent of that state. -/
theorem turn_independent_of_rate_limiters (o : Oracles) (w w' : Limiters)
    (message : Option String) (remoteAddr : String) :
    (agentChatApi o w message remoteAddr).2 = w ∧
    (agentChatApi o w message remoteAddr).1 =
      (agentChatApi o w' message remoteAddr).1 := by
  cases message with
  | none => exact ⟨rfl, rfl⟩
  | some m =>
    by_cases hm : m == ""
    · constructor <;> simp [agentChatApi, hm]
    · constructor <;> simp [agentChatApi, hm]

/-- C5 counterexample: a failing chat-model backend surfaces in the
turn result, yet only one attempt of the wrapped `run_agent_chat` is
made — the retry decorator never sees the failure. -/
theorem no_retry_on_llm_failure :
    (runAgentChat failChatOracles "hello" "s5").error = some "boom" ∧
    (runAgentChatRetried failChatOracles "hello" "s5").2 = 1 :=
  ⟨rfl, rfl⟩

/-- C5 (amended): the internal handler of `run_agent_chat` converts
every workflow failure to a categorized fallback with an error field on
the first attempt, so the retry decorator always returns after one
attempt; its sleep schedule for the configured parameters is the single
delay `[1]` second. -/
theorem llm_failure_single_attempt_fallback (o : Oracles) (m sid : String) :
    runAgentChatRetried o m sid = (.ok (runAgentChat o m sid), 1)
  ∧ (∀ e : GraphError, (runGraph o (initialState m)).1 = .error e →
      runAgentChat o m sid =
        { reply := getFallbackResponse (classifyErrorType (graphErrorMessage e)) m
        , movies := none
        , tvShows := none
        , metadata := .failure sid (classifyErrorType (graphErrorMessage e))
        , error := some (graphErrorMessage e) })
  ∧ retryDelays 2 1 = [1] := by
  refine ⟨rfl, ?_, by decide⟩
  intro e he
  unfold runAgentChat
  rw [he]

/-- C5 witness: the conditional fallback clause evaluated at a
concrete failing backend. -/
theorem llm_failure_single_attempt_fallback_witness :
    runAgentChat failChatOracles "hello" "s6" =
      { reply := getFallbackResponse
          (classifyErrorType (graphErrorMessage (.nodeError "boom"))) "hello"
      , movies := none
      , tvShows := none
      , metadata := .failure "s6"
          (classifyErrorType (graphErrorMessage (.nodeError "boom")))
      , error := some (graphErrorMessage (.nodeError "boom")) } :=
  (llm_failure_single_attempt_fallback failChatOracles "hello" "s6").2.1
    (.nodeError "boom") rfl

/-- C6: with `max_requests = N` over window `W`: a request is admitted
while the pruned window holds fewer than `N` timestamps; with `N`
admitted timestamps inside the window the next request is refused and
`get_wait_time` is strictly positive; and once the window time has
elapsed past the oldest admitted timestamp, a request is admitted
again. -/
theorem rate_limiter_window_behavior (rl : RateLimiter) (id : String) (now t : ℤ)
    (hmax : 0 < rl.maxRequests) :
    ((pruneWindow rl id now).length < rl.maxRequests →
      (isAllowed rl id now).1 = true)
  ∧ ((getRequests rl id).length = rl.maxRequests →
      (∀ x ∈ getRequests rl id, now - rl.timeWindow < x) →
      (isAllowed rl id now).1 = false ∧ 0 < (getWaitTime rl id now).1)
  ∧ ((getRequests rl id).length = rl.maxRequests →
      (∀ x ∈ getRequests rl id, now - rl.timeWindow < x) →
      pyMin (getRequests rl id) + rl.timeWindow ≤ t →
      (isAllowed (isAllowed rl id now).2 id t).1 = true) := by
  refine ⟨?_, ?_, ?_⟩
  · intro h
    unfold isAllowed
    rw [if_pos h]
  · intro hlen hin
    have hprune : pruneWindow rl id now = getRequests rl id := by
      unfold pruneWindow
      apply List.filter_eq_self.mpr
      intro x hx
      exact decide_eq_true (hin x hx)
    have hnotlt : ¬ (pruneWindow rl id now).length < rl.maxRequests := by
      rw [hprune, hlen]
      exact lt_irrefl _
    have hfalse : isAllowed rl id now =
        (false, setRequests rl id (pruneWindow rl id now)) := by
      unfold isAllowed
      rw [if_neg hnotlt]
    constructor
    · rw [hfalse]
    · have hne : getRequests rl id ≠ [] := by
        intro hnil
        rw [hnil] at hlen
        simp at hlen
        omega
      have hmem : pyMin (getRequests rl id) ∈ getRequests rl id :=
        pyMin_mem _ hne
      have hlt : now - rl.timeWindow < pyMin (getRequests rl id) :=
        hin _ hmem
      unfold getWaitTime
      rw [hfalse]
      simp only [getRequests_setRequests_self, hprune]
      rw [if_neg (by simp)]
      rw [if_neg (by simp [List.isEmpty_iff, hne])]
      have : 0 < pyMin (getRequests rl id) + rl.timeWindow - now := by omega
      simp only [lt_max_iff]
      right
      exact this
  · intro hlen hin hmin
    have hprune : pruneWindow rl id now = getRequests rl id := by
      unfold pruneWindow
      apply List.filter_eq_self.mpr
      intro x hx
      exact decide_eq_true (hin x hx)
    have hnotlt : ¬ (pruneWindow rl id now).length < rl.maxRequests := by
      rw [hprune, hlen]
      exact lt_irrefl _
    have hfalse : isAllowed rl id now =
        (false, setRequests rl id (pruneWindow rl id now)) := by
      unfold isAllowed
      rw [if_neg hnotlt]
    have hne : getRequests rl id ≠ [] := by
      intro hnil
      rw [hnil] at hlen
      simp at hlen
      omega
    have hmem : pyMin (getRequests rl id) ∈ getRequests rl id :=
      pyMin_mem _ hne
    rw [hfalse]
    show (isAllowed (setRequests rl id (pruneWindow rl id now)) id t).1 = true
    have hlt2 : (pruneWindow (setRequests rl id (pruneWindow rl id now)) id t).length <
        (setRequests rl id (pruneWindow rl id now)).maxRequests := by
      rw [pruneWindow_setRequests, hprune]
      show _ < rl.maxRequests
      have hexcl :
          ((getRequests rl id).filter (fun x => decide (t - rl.timeWindow < x))).length <
            (getRequests rl id).length := by
        rw [List.length_filter_lt_length_iff_exists]
        refine ⟨pyMin (getRequests rl id), hmem, ?_⟩
        simp only [decide_eq_true_eq]
        omega
      omega
    unfold isAllowed
    rw [if_pos hlt2]

/-- C6 witness: a 2-per-60-seconds limiter with both slots taken at
times 0 and 10 refuses a request at time 20 with a positive wait, and
admits again at time 60. -/
theorem rate_limiter_window_behavior_witness :
    (isAllowed rlTwo "s" 20).1 = false ∧ 0 < (getWaitTime rlTwo "s" 20).1 ∧
    (isAllowed (isAllowed rlTwo "s" 20).2 "s" 60).1 = true := by
  have h := rate_limiter_window_behavior rlTwo "s" 20 60 (by decide)
  exact ⟨(h.2.1 (by decide) (by decide)).1, (h.2.1 (by decide) (by decide)).2,
         h.2.2 (by decide) (by decide) (by decide)⟩

/-- C10: `is_allowed` is effectful — every under-limit check records
the current timestamp; `get_wait_time` while under the limit returns 0
and records a request; and a `check_rate_limit` call refused by the
session limiter has still consumed one slot of the global window. -/
theorem rate_limiter_is_effectful (rl : RateLimiter) (w : Limiters)
    (id sid : String) (now : ℤ) :
    ((pruneWindow rl id now).length < rl.maxRequests →
      getRequests (isAllowed rl id now).2 id = pruneWindow rl id now ++ [now])
  ∧ ((pruneWindow rl id now).length < rl.maxRequests →
      (getWaitTime rl id now).1 = 0 ∧
      getRequests (getWaitTime rl id now).2 id = pruneWindow rl id now ++ [now])
  ∧ ((pruneWindow w.globalLimiter "global" now).length < w.globalLimiter.maxRequests →
      ¬ (pruneWindow w.userLimiter sid now).length < w.userLimiter.maxRequests →
      (checkRateLimit w sid now).1.1 = false ∧
      getRequests (checkRateLimit w sid now).2.globalLimiter "global" =
        pruneWindow w.globalLimiter "global" now ++ [now]) := by
  refine ⟨?_, ?_, ?_⟩
  · intro h
    have htrue : isAllowed rl id now =
        (true, setRequests rl id (pruneWindow rl id now ++ [now])) := by
      unfold isAllowed
      rw [if_pos h]
    rw [htrue, getRequests_setRequests_self]
  · intro h
    have htrue : isAllowed rl id now =
        (true, setRequests rl id (pruneWindow rl id now ++ [now])) := by
      unfold isAllowed
      rw [if_pos h]
    unfold getWaitTime
    rw [htrue]
    exact ⟨rfl, getRequests_setRequests_self _ _ _⟩
  · intro hg hu
    have hgtrue : isAllowed w.globalLimiter "global" now =
        (true, setRequests w.globalLimiter "global"
          (pruneWindow w.globalLimiter "global" now ++ [now])) := by
      unfold isAllowed
      rw [if_pos hg]
    have hufalse : isAllowed w.userLimiter sid now =
        (false, setRequests w.userLimiter sid (pruneWindow w.userLimiter sid now)) := by
      unfold isAllowed
      rw [if_neg hu]
    unfold checkRateLimit
    rw [hgtrue, hufalse]
    simp only [Bool.not_true, Bool.not_false, if_neg, if_pos]
    exact ⟨rfl, getRequests_setRequests_self _ _ _⟩

/-- C10 witness: the effectful behavior at concrete limiter states. -/
theorem rate_limiter_is_effectful_witness :
    getRequests (isAllowed rlTwo "t" 20).2 "t" = pruneWindow rlTwo "t" 20 ++ [20] ∧
    (getWaitTime rlTwo "t" 20).1 = 0 ∧
    (checkRateLimit mixedLimiters "u" 20).1.1 = false ∧
    getRequests (checkRateLimit mixedLimiters "u" 20).2.globalLimiter "global" =
      pruneWindow mixedLimiters.globalLimiter "global" 20 ++ [20] := by
  have h := rate_limiter_is_effectful rlTwo mixedLimiters "t" "u" 20
  exact ⟨h.1 (by decide), (h.2.1 (by decide)).1, (h.2.2 (by decide) (by decide)).1,
         (h.2.2 (by decide) (by decide)).2⟩

theorem aiBranchDecision_of_human (s : GraphState) (c : String)
    (h : s.messages.getLast? = some (.human c)) : aiBranchDecision s = none := by
  unfold aiBranchDecision
  split
  · rw [h]
  · rfl

theorem humanBranchDecision_of_ai (s : GraphState) (c : String) (tcs : List ToolCall)
    (h : s.messages.getLast? = some (.ai c tcs)) : humanBranchDecision s = none := by
  unfold humanBranchDecision
  rw [h]

theorem supervisorNode_eq_llmRoute (o : Oracles) (s : GraphState)
    (h1 : aiBranchDecision s = none) (h2 : humanBranchDecision s = none) :
    supervisorNode o s = llmRoute o s := by
  unfold supervisorNode
  rw [h1, h2]

theorem aiBranchDecision_enrich (s : GraphState) (c : String) (tcs : List ToolCall)
    (hlen : s.messages.length ≥ 2)
    (hlast : s.messages.getLast? = some (.ai c tcs))
    (hcond : (hasRecommendationLang c && !isGreetingResponseLang c) = true) :
    aiBranchDecision s =
      some { s with nextStep := some "enricher", userIntent := some "enrich" } := by
  unfold aiBranchDecision
  rw [if_pos hlen, hlast]
  simp [hcond]

theorem aiBranchDecision_end (s : GraphState) (c : String) (tcs : List ToolCall)
    (hlen : s.messages.length ≥ 2)
    (hlast : s.messages.getLast? = some (.ai c tcs))
    (hcond : ((isExplanationLang c || isGreetingResponseLang c)
        && !hasRecommendationLang c) = true) :
    aiBranchDecision s =
      some { s with nextStep := some "end", userIntent := some "end" } := by
  have h2 := hcond
  rw [Bool.and_eq_true] at h2
  have hfirst : (hasRecommendationLang c && !isGreetingResponseLang c) = false := by
    cases hre : hasRecommendationLang c
    · simp
    · rw [hre] at h2
      simp at h2
  unfold aiBranchDecision
  rw [if_pos hlen, hlast]
  simp [hfirst, hcond]

theorem aiBranchDecision_none_of_no_rule (s : GraphState) (c : String)
    (tcs : List ToolCall)
    (hlast : s.messages.getLast? = some (.ai c tcs))
    (h1 : (hasRecommendationLang c && !isGreetingResponseLang c) = false)
    (h2 : ((isExplanationLang c || isGreetingResponseLang c)
        && !hasRecommendationLang c) = false) :
    aiBranchDecision s = none := by
  unfold aiBranchDecision
  split
  · rw [hlast]
    simp [h1, h2]
  · rfl

theorem humanBranchDecision_retriever (s : GraphState) (c : String)
    (hlast : s.messages.getLast? = some (.human c))
    (hw : humanWantsRec c = true) :
    humanBranchDecision s =
      some { s with nextStep := some "retriever", userIntent := some "search" } := by
  unfold humanBranchDecision
  rw [hlast]
  simp [hw]

theorem humanBranchDecision_chat (s : GraphState) (c : String)
    (hlast : s.messages.getLast? = some (.human c))
    (hw : humanWantsRec c = false)
    (hq : (humanAsksQuestion c || humanGreets c) = true) :
    humanBranchDecision s =
      some { s with nextStep := some "chat", userIntent := some "chat" } := by
  unfold humanBranchDecision
  rw [hlast]
  cases hqq : humanAsksQuestion c
  · rw [hqq] at hq
    simp at hq
    simp [hw, hqq, hq]
  · simp [hw, hqq]

theorem humanBranchDecision_none (s : GraphState) (c : String)
    (hlast : s.messages.getLast? = some (.human c))
    (hw : humanWantsRec c = false)
    (hq : humanAsksQuestion c = false)
    (hg : humanGreets c = false) :
    humanBranchDecision s = none := by
  unfold humanBranchDecision
  rw [hlast]
  simp [hw, hq, hg]

/-- C3 counterexample: an assistant reply containing the
recommendation phrase `recommend` together with the greeting phrase
`i'd be happy` is routed by the fallback LLM call, not to enrichment —
the route follows the oracle answer. -/
theorem supervisor_rec_greeting_falls_to_llm :
    hasRecommendationLang "i\x27d be happy to recommend" = true ∧
    supervisorNode supChatOracles greetRecState =
      .ok { greetRecState with nextStep := some "chat", userIntent := some "chat" } ∧
    supervisorNode stubOracles greetRecState =
      .ok { greetRecState with nextStep := some "end", userIntent := some "end" } :=
  ⟨by decide, rfl, rfl⟩

/-- C3 (amended): the supervisor decision policy — with at least two
messages and an assistant message last, a recommendation phrase without
a greeting phrase routes to enrichment and an explanation or greeting
phrase without a recommendation phrase routes to terminate; with a user
message last, recommendation keywords route to retrieval and question
or greeting keywords route to chat; whenever no keyword rule fires the
structured-output LLM call decides, over the system prompt plus the
last 3 messages. -/
theorem supervisor_routing_policy (o : Oracles) (s : GraphState) (c : String)
    (tcs : List ToolCall) :
    (s.messages.length ≥ 2 → s.messages.getLast? = some (.ai c tcs) →
      (hasRecommendationLang c && !isGreetingResponseLang c) = true →
      supervisorNode o s =
        .ok { s with nextStep := some "enricher", userIntent := some "enrich" })
  ∧ (s.messages.length ≥ 2 → s.messages.getLast? = some (.ai c tcs) →
      ((isExplanationLang c || isGreetingResponseLang c)
          && !hasRecommendationLang c) = true →
      supervisorNode o s =
        .ok { s with nextStep := some "end", userIntent := some "end" })
  ∧ (s.messages.getLast? = some (.human c) → humanWantsRec c = true →
      supervisorNode o s =
        .ok { s with nextStep := some "retriever", userIntent := some "search" })
  ∧ (s.messages.getLast? = some (.human c) → humanWantsRec c = false →
      (humanAsksQuestion c || humanGreets c) = true →
      supervisorNode o s =
        .ok { s with nextStep := some "chat", userIntent := some "chat" })
  ∧ (s.messages.getLast? = some (.ai c tcs) →
      (hasRecommendationLang c && !isGreetingResponseLang c) = false →
      ((isExplanationLang c || isGreetingResponseLang c)
          && !hasRecommendationLang c) = false →
      supervisorNode o s = llmRoute o s)
  ∧ (s.messages.getLast? = some (.human c) → humanWantsRec c = false →
      humanAsksQuestion c = false → humanGreets c = false →
      supervisorNode o s = llmRoute o s) := by
  refine ⟨?_, ?_, ?_, ?_, ?_, ?_⟩
  · intro hlen hlast hcond
    unfold supervisorNode
    rw [aiBranchDecision_enrich s c tcs hlen hlast hcond]
  · intro hlen hlast hcond
    unfold supervisorNode
    rw [aiBranchDecision_end s c tcs hlen hlast hcond]
  · intro hlast hw
    unfold supervisorNode
    rw [aiBranchDecision_of_human s c hlast,
        humanBranchDecision_retriever s c hlast hw]
  · intro hlast hw hq
    unfold supervisorNode
    rw [aiBranchDecision_of_human s c hlast,
        humanBranchDecision_chat s c hlast hw hq]
  · intro hlast h1 h2
    exact supervisorNode_eq_llmRoute o s
      (aiBranchDecision_none_of_no_rule s c tcs hlast h1 h2)
      (humanBranchDecision_of_ai s c tcs hlast)
  · intro hlast hw hq hg
    exact supervisorNode_eq_llmRoute o s
      (aiBranchDecision_of_human s c hlast)
      (humanBranchDecision_none s c hlast hw hq hg)

/-- C3 witness: the enrichment rule evaluated on a concrete
recommendation reply. -/
theorem supervisor_routing_policy_witness :
    supervisorNode stubOracles hereAreState =
      .ok { hereAreState with nextStep := some "enricher", userIntent := some "enrich" } :=
  (supervisor_routing_policy stubOracles hereAreState "here are" []).1
    (by decide) rfl (by decide)

/-- C7 counterexample: an assistant reply with no recommendation
vocabulary falls through to the LLM fallback, which routes the turn to
the enricher. -/
theorem supervisor_llm_fallback_routes_to_enricher :
    supervisorNode supEnricherOracles aiPlainState = .ok aiPlainEnrichedState ∧
    aiPlainEnrichedState.nextStep = some "enricher" ∧
    shouldContinue aiPlainEnrichedState = "enricher" ∧
    hasRecommendationLang "a film" = false :=
  ⟨rfl, rfl, rfl, by decide⟩

/-- C7 (amended): when the last message is an assistant reply with no
recommendation vocabulary, the keyword rules never route to the
enricher — the supervisor either terminates or adopts verbatim the
route returned by the fallback LLM call. -/
theorem no_enrich_without_rec_vocab (o : Oracles) (s s' : GraphState) (c : String)
    (tcs : List ToolCall)
    (hlast : s.messages.getLast? = some (.ai c tcs))
    (hrec : hasRecommendationLang c = false)
    (hok : supervisorNode o s = .ok s') :
    s'.nextStep = some "end" ∨
    ∃ d, o.supLLM (supervisorContext s) = .ok d ∧ s'.nextStep = some d.nextStep := by
  have hfirst : (hasRecommendationLang c && !isGreetingResponseLang c) = false := by
    simp [hrec]
  by_cases hsecond : ((isExplanationLang c || isGreetingResponseLang c)
      && !hasRecommendationLang c) = true
  · by_cases hlen : s.messages.length ≥ 2
    · have hai := aiBranchDecision_end s c tcs hlen hlast hsecond
      unfold supervisorNode at hok
      rw [hai] at hok
      injection hok with hok
      subst hok
      left
      rfl
    · have hai : aiBranchDecision s = none := by
        unfold aiBranchDecision
        rw [if_neg hlen]
      have heq := supervisorNode_eq_llmRoute o s hai
        (humanBranchDecision_of_ai s c tcs hlast)
      rw [heq] at hok
      unfold llmRoute at hok
      cases hd : o.supLLM (supervisorContext s) with
      | error e =>
        rw [hd] at hok
        exact Except.noConfusion hok
      | ok d =>
        rw [hd] at hok
        injection hok with hok
        subst hok
        right
        exact ⟨d, rfl, rfl⟩
  · have hsecond2 : ((isExplanationLang c || isGreetingResponseLang c)
        && !hasRecommendationLang c) = false :=
      Bool.eq_false_iff.mpr hsecond
    have hai := aiBranchDecision_none_of_no_rule s c tcs hlast hfirst hsecond2
    have heq := supervisorNode_eq_llmRoute o s hai
      (humanBranchDecision_of_ai s c tcs hlast)
    rw [heq] at hok
    unfold llmRoute at hok
    cases hd : o.supLLM (supervisorContext s) with
    | error e =>
      rw [hd] at hok
      exact Except.noConfusion hok
    | ok d =>
      rw [hd] at hok
      injection hok with hok
      subst hok
      right
      exact ⟨d, rfl, rfl⟩

/-- C7 witness: the fallback clause evaluated at a concrete state and
oracle. -/
theorem no_enrich_without_rec_vocab_witness :
    aiPlainEnrichedState.nextStep = some "end" ∨
    ∃ d, supEnricherOracles.supLLM (supervisorContext aiPlainState) = .ok d ∧
      aiPlainEnrichedState.nextStep = some d.nextStep :=
  no_enrich_without_rec_vocab supEnricherOracles aiPlainState aiPlainEnrichedState
    "a film" [] rfl (by decide) rfl

/-- C8 counterexample: a turn that terminates without enrichment
returns a response with the `movies` and `tv_shows` keys absent, not
present as empty sequences. -/
theorem terminate_turn_omits_media_keys :
    runAgentChat chatTermOracles "what is x" "s8c" =
      { reply := "a genre"
      , movies := none
      , tvShows := none
      , metadata := .success "s8c" 2 (some "end") (some "end")
      , error := none } ∧
    (runAgentChat chatTermOracles "what is x" "s8c").movies ≠ some [] :=
  ⟨rfl, by decide⟩

/-- C8 (amended): a successful turn result always carries the reply
and the metadata block `session_id`, `message_count`, `route`,
`intent` with no error field; the `movies` and `tv_shows` keys are
present exactly when the corresponding enriched list is nonempty. -/
theorem response_shape_on_success (o : Oracles) (m sid : String) (fs : GraphState)
    (h : (runGraph o (initialState m)).1 = .ok fs) :
    runAgentChat o m sid =
      { reply := finalReply fs.messages
      , movies := if fs.finalResponseMetadata.movies.isEmpty then none
                  else some fs.finalResponseMetadata.movies
      , tvShows := if fs.finalResponseMetadata.tvShows.isEmpty then none
                   else some fs.finalResponseMetadata.tvShows
      , metadata := .success sid fs.messages.length fs.nextStep fs.userIntent
      , error := none }
  ∧ ((runAgentChat o m sid).movies = none ↔ fs.finalResponseMetadata.movies = [])
  ∧ ((runAgentChat o m sid).tvShows = none ↔ fs.finalResponseMetadata.tvShows = []) := by
  have hrun : runAgentChat o m sid =
      { reply := finalReply fs.messages
      , movies := if fs.finalResponseMetadata.movies.isEmpty then none
                  else some fs.finalResponseMetadata.movies
      , tvShows := if fs.finalResponseMetadata.tvShows.isEmpty then none
                   else some fs.finalResponseMetadata.tvShows
      , metadata := .success sid fs.messages.length fs.nextStep fs.userIntent
      , error := none } := by
    unfold runAgentChat
    rw [h]
  refine ⟨hrun, ?_, ?_⟩
  · rw [hrun]
    by_cases he : fs.finalResponseMetadata.movies.isEmpty = true
    · simp only [if_pos he]
      exact ⟨fun _ => List.isEmpty_iff.mp he, fun _ => trivial⟩
    · simp only [if_neg he]
      exact ⟨fun hx => (Option.some_ne_none _ hx).elim,
             fun hx => (he (List.isEmpty_iff.mpr hx)).elim⟩
  · rw [hrun]
    by_cases he : fs.finalResponseMetadata.tvShows.isEmpty = true
    · simp only [if_pos he]
      exact ⟨fun _ => List.isEmpty_iff.mp he, fun _ => trivial⟩
    · simp only [if_neg he]
      exact ⟨fun hx => (Option.some_ne_none _ hx).elim,
             fun hx => (he (List.isEmpty_iff.mpr hx)).elim⟩

/-- C8 witness: the key-absence equivalence evaluated on a concrete
chat-terminated turn. -/
theorem response_shape_on_success_witness :
    (runAgentChat chatTermOracles "what is x" "s8").movies = none :=
  ((response_shape_on_success chatTermOracles "what is x" "s8"
      chatTermFinalState rfl).2.1).mpr rfl

/-- C9: each invocation of the chat agent appends exactly one
assistant message and leaves `retrieved_context` and
`final_response_metadata` unchanged; each invocation of the retrieval
agent appends exactly one message — its agent result final message, or
the default AI message on an empty result — records the tool
invocations, and leaves all other fields unchanged; under the react
agent contract (the agent result ends in an AI message whenever it is
nonempty) that appended message is an assistant message. -/
theorem agent_nodes_append_one_message (o : Oracles) (s s' : GraphState) :
    (chatNode o s = .ok s' →
      ∃ content, o.chatLLM (chatContext s) = .ok content ∧
        s' = { s with messages := s.messages ++ [Msg.ai content []] })
  ∧ (chatNode o s = .ok s' →
      s'.messages.length = s.messages.length + 1 ∧
      s'.retrievedContext = s.retrievedContext ∧
      s'.finalResponseMetadata = s.finalResponseMetadata ∧
      s'.messages.getLast?.map Msg.isAI = some true)
  ∧ (retrieverNode o s = .ok s' →
      ∃ agentMsgs, o.reactAgent (retrieverContext s) = .ok agentMsgs ∧
        s'.messages = s.messages ++ [finalAgentMessage agentMsgs] ∧
        s'.messages.length = s.messages.length + 1 ∧
        s'.retrievedContext = collectToolCalls agentMsgs ∧
        s'.userIntent = s.userIntent ∧
        s'.nextStep = s.nextStep ∧
        s'.finalResponseMetadata = s.finalResponseMetadata ∧
        ((∀ lastMsg ∈ agentMsgs.getLast?, lastMsg.isAI = true) →
          s'.messages.getLast?.map Msg.isAI = some true)) := by
  refine ⟨?_, ?_, ?_⟩
  · intro hok
    unfold chatNode at hok
    cases hc : o.chatLLM (chatContext s) with
    | error e =>
      rw [hc] at hok
      exact Except.noConfusion hok
    | ok content =>
      rw [hc] at hok
      injection hok with hok
      subst hok
      exact ⟨content, rfl, rfl⟩
  · intro hok
    unfold chatNode at hok
    cases hc : o.chatLLM (chatContext s) with
    | error e =>
      rw [hc] at hok
      exact Except.noConfusion hok
    | ok content =>
      rw [hc] at hok
      injection hok with hok
      subst hok
      refine ⟨by simp, rfl, rfl, ?_⟩
      rw [show ({ s with messages := s.messages ++ [Msg.ai content []] } :
            GraphState).messages = s.messages ++ [Msg.ai content []] from rfl]
      rw [List.getLast?_concat]
      rfl
  · intro hok
    unfold retrieverNode at hok
    cases hc : o.reactAgent (retrieverContext s) with
    | error e =>
      rw [hc] at hok
      exact Except.noConfusion hok
    | ok agentMsgs =>
      rw [hc] at hok
      injection hok with hok
      subst hok
      refine ⟨agentMsgs, rfl, rfl, by simp, rfl, rfl, rfl, rfl, ?_⟩
      intro hcontract
      show (s.messages ++ [finalAgentMessage agentMsgs]).getLast?.map Msg.isAI =
        some true
      rw [List.getLast?_concat]
      cases h : agentMsgs.getLast? with
      | none =>
        unfold finalAgentMessage
        rw [h]
        rfl
      | some m =>
        have hm : m.isAI = true := hcontract m (by rw [h]; rfl)
        unfold finalAgentMessage
        rw [h]
        exact congrArg some hm

/-- C9 witness: both node contracts evaluated at concrete inputs,
including the assistant-message fact for the appended retriever
message. -/
theorem agent_nodes_append_one_message_witness :
    ((∃ content, stubOracles.chatLLM (chatContext (initialState "hi")) = .ok content ∧
        chatWitState = { initialState "hi" with
          messages := (initialState "hi").messages ++ [Msg.ai content []] }) ∧
      chatWitState.messages.length = (initialState "hi").messages.length + 1) ∧
    (∃ agentMsgs, stubOracles.reactAgent (retrieverContext (initialState "hi")) =
        .ok agentMsgs ∧
      retWitState.messages = (initialState "hi").messages ++ [finalAgentMessage agentMsgs]) ∧
    retWitState.messages.getLast?.map Msg.isAI = some true := by
  refine ⟨⟨?_, ?_⟩, ?_, ?_⟩
  · exact (agent_nodes_append_one_message stubOracles (initialState "hi")
      chatWitState).1 rfl
  · exact ((agent_nodes_append_one_message stubOracles (initialState "hi")
      chatWitState).2.1 rfl).1
  · obtain ⟨ms, h1, h2, -⟩ := (agent_nodes_append_one_message stubOracles
      (initialState "hi") retWitState).2.2 rfl
    exact ⟨ms, h1, h2⟩
  · obtain ⟨ms, h1, -, -, -, -, -, -, hAI⟩ := (agent_nodes_append_one_message
      stubOracles (initialState "hi") retWitState).2.2 rfl
    have h1' : (Except.ok ([] : List Msg) : Except String (List Msg)) = .ok ms := h1
    injection h1' with he
    subst he
    exact hAI (by simp)
